import Mathlib

/-!
# Verification of `lib/verify.js` (browserid-local-verify)

A shallow embedding of the BrowserID assertion verifier, revision 2 of the
module (the `jac` / `cdi` protocol revision: reserved claims `jac`, `cdi`,
`scope`, `scope_description`; `verifyDigest` with the `DIGEST_ALGS` table;
per-scope `attributeCertClaims` storage with the scope-collision check).

External collaborators (jwcrypto token codec, sjcl hashes, the browserid
issuer resolver, the audience matcher) are modelled as oracle inputs: a
`World` value records their behaviour for one call, and the embedded
functions are pure functions of that behaviour, exactly mirroring the
control flow of the JavaScript.

JavaScript dynamic values are modelled by the flat type `JsVal`; objects
whose structure the verifier inspects (payloads, the `principal` object,
the `cdi` descriptor) are modelled as explicit structures, with their
reserved top-level keys carried as dedicated fields and all remaining
top-level claims carried as an insertion-ordered association list.
-/

namespace BrowserIdVerify

/-- A JavaScript value as far as the verifier's dynamic checks observe it:
primitives are carried exactly; `objRef` stands for any object or array
value whose internal structure the verifier does not inspect (such values
are always truthy and are not strings). -/
inductive JsVal where
  | undef
  | null
  | bool (b : Bool)
  | num (n : Int)
  | str (s : String)
  | objRef (id : Nat)
deriving DecidableEq, Repr

/-- JavaScript truthiness: `undefined`, `null`, `false`, `0` and `""` are
falsy; everything else (including every object) is truthy. -/
def truthy : JsVal → Bool
  | .undef => false
  | .null => false
  | .bool b => b
  | .num n => n != 0
  | .str s => s ≠ ""
  | .objRef _ => true

/-- The underscore `_.isString` check. -/
def isString : JsVal → Bool
  | .str _ => true
  | _ => false

/-- JavaScript string coercion (`String(v)`), used when a value reaches the
email regular expression. -/
def jsToString : JsVal → String
  | .undef => "undefined"
  | .null => "null"
  | .bool b => if b then "true" else "false"
  | .num n => toString n
  | .str s => s
  | .objRef _ => "[object Object]"

/-- JavaScript object property read on an insertion-ordered association
list: the value stored at the key, defaulting to `undefined`. -/
def objGet : List (String × JsVal) → String → JsVal
  | [], _ => .undef
  | (k, v) :: rest, key => if k = key then v else objGet rest key

/-- JavaScript object property write: an existing key keeps its position
and gets the new value; a fresh key is appended (JS insertion order). -/
def objSet {α : Type} : List (String × α) → String → α → List (String × α)
  | [], key, v => [(key, v)]
  | (k, w) :: rest, key, v =>
    if k = key then (k, v) :: rest else (k, w) :: objSet rest key v

/-- Property read keyed by a `JsVal` (the scope key used on the
`attributeCertClaims` array-as-object); `none` when absent. -/
def scopeGet {α : Type} : List (JsVal × α) → JsVal → Option α
  | [], _ => none
  | (k, v) :: rest, key => if k = key then some v else scopeGet rest key

/-- Property write keyed by a `JsVal`, same insertion-order semantics. -/
def scopeSet {α : Type} : List (JsVal × α) → JsVal → α → List (JsVal × α)
  | [], key, v => [(key, v)]
  | (k, w) :: rest, key, v =>
    if k = key then (k, v) :: rest else (k, w) :: scopeSet rest key v

/-- The reserved claim names of the active protocol revision
(`reservedClaimNames` in the source). -/
def reservedClaimNames : List String :=
  ["iss", "sub", "aud", "exp", "nbf", "iat", "jti", "public-key",
   "principal", "jac", "cdi", "scope", "scope_description"]

/-- The `cdi` (certificate digest information) descriptor: an object with
`alg` and `dig` properties, each an arbitrary JS value.  A payload whose
`cdi` is absent or not an object is modelled as `none` (every such value
makes `verifyDigest` return a falsy result, as in the source). -/
structure CDI where
  alg : JsVal := .undef
  dig : JsVal := .undef
deriving DecidableEq, Repr

/-- A decoded token payload.  The reserved top-level keys the verifier
inspects structurally are dedicated fields (`principal` is `some` exactly
when the payload carries an object-valued `principal`; `cdi` is `some`
exactly when it carries an object-valued `cdi`; `jac` is `some` exactly
when it carries an array-valued `jac`, holding the embedded attribute
certificate tokens as opaque strings).  All remaining top-level claims are
in `top`, in key insertion order; reserved names among them are filtered
out by claim extraction just as in the source. -/
structure Payload where
  top : List (String × JsVal) := []
  principal : Option (List (String × JsVal)) := none
  sub : JsVal := .undef
  iss : JsVal := .undef
  scope : JsVal := .undef
  cdi : Option CDI := none
  jac : Option (List String) := none
deriving DecidableEq, Repr

/-- The first `Object.keys(claims).forEach` loop of `extractExtraClaims`:
copy every non-reserved top-level claim into the accumulator. -/
def topExtract (acc : List (String × JsVal)) : List (String × JsVal) → List (String × JsVal)
  | [] => acc
  | kv :: rest =>
    topExtract (if kv.1 ∈ reservedClaimNames then acc else objSet acc kv.1 kv.2) rest

/-- The principal-overlay loop of `extractExtraClaims`: overlay each
`principal` field that is not reserved, not named `email`, and whose name
is not already truthy in the accumulator (the source's `!extraClaims[key]`
guard is a falsiness check, not a presence check). -/
def overlayPrincipal (acc : List (String × JsVal)) : List (String × JsVal) → List (String × JsVal)
  | [] => acc
  | kv :: rest =>
    overlayPrincipal
      (if kv.1 ∉ reservedClaimNames ∧ kv.1 ≠ "email" ∧ truthy (objGet acc kv.1) = false
       then objSet acc kv.1 kv.2 else acc) rest

/-- The function `extractExtraClaims(claims)`: `null` for a missing payload; otherwise
the non-reserved top-level claims with the principal overlay applied, and
`null` again when the result is empty. -/
def extractExtraClaims (claims : Option Payload) : Option (List (String × JsVal)) :=
  match claims with
  | none => none
  | some c =>
    let e :=
      match c.principal with
      | none => topExtract [] c.top
      | some p => overlayPrincipal (topExtract [] c.top) p
    if e.isEmpty then none else some e

/-- The two supported digest algorithms (sjcl SHA-256 / SHA-512 with
base64url output in the source) as abstract string functions supplied by
the cryptographic collaborator. -/
structure DigestAlgs where
  s256 : String → String
  s512 : String → String

/-- The `DIGEST_ALGS` table lookup: a function for the two known names,
`undefined` (here `none`) for every other name. -/
def digestAlg (algs : DigestAlgs) (a : String) : Option (String → String) :=
  if a = "S256" then some algs.s256
  else if a = "S512" then some algs.s512
  else none

/-- The function `verifyDigest(data, certDigestInfo)`: falsy unless the descriptor is an
object whose `alg` and `dig` are strings, `alg` names a supported
algorithm, and the computed digest of `data` equals `dig` exactly. -/
def verifyDigest (algs : DigestAlgs) (data : String) (cdi : Option CDI) : Bool :=
  match cdi with
  | none => false
  | some d =>
    match d.alg, d.dig with
    | .str a, .str dg =>
      (match digestAlg algs a with
       | some f => decide (f data = dg)
       | none => false)
    | _, _ => false

/-- The function `verifyAttributeCert(jwt, now, publicKey, certData, certIssuer, cb)`:
the signature collaborator (`jwcrypto.assertion.verify`, modelled by
`sigVerify jwt publicKey now`, `none` on any signature/validity failure)
is consulted first; the callback then receives `null` unless the payload
exists, carries a truthy `scope`, its `cdi` verifies against the primary
certificate bytes, and any truthy `iss` strictly equals the primary
certificate issuer.  The returned value is the payload handed to `cb`. -/
def verifyAttributeCert (algs : DigestAlgs)
    (sigVerify : String → String → Int → Option Payload)
    (jwt : String) (now : Int) (publicKey : String)
    (certData : String) (certIssuer : String) : Option Payload :=
  match sigVerify jwt publicKey now with
  | none => none
  | some payload =>
    if truthy payload.scope = false ∨ verifyDigest algs certData payload.cdi = false ∨
       (truthy payload.iss = true ∧ payload.iss ≠ .str certIssuer)
    then none
    else some payload

/-- The response object built by `verify`.  `email` is `some` exactly when
the source sets `obj.email`; `idpClaims` / `userClaims` /
`attributeCertClaims` are `some` exactly when the corresponding property
is set.  `attributeCertClaims` is the source's array-used-as-object,
keyed by each attribute certificate's `scope` value.  The nested
provenance objects `idpClaims._claim_names` (claim name to scope) and
`idpClaims._claim_sources` (scope to raw token) written only in aggregate
mode are carried as the dedicated fields `claimNames` / `claimSources`,
since `JsVal` is flat. -/
structure ResultObj where
  audience : JsVal
  expires : JsVal
  issuer : Option String
  email : Option JsVal := none
  idpClaims : Option (List (String × JsVal)) := none
  userClaims : Option (List (String × JsVal)) := none
  attributeCertClaims : Option (List (JsVal × List (String × JsVal))) := none
  claimNames : List (String × JsVal) := []
  claimSources : List (JsVal × String) := []
deriving DecidableEq, Repr

/-- The result of one `browserid.lookup` call: the issuer's public key and
the optional authoritative domain from the support document (`none` also
covers a falsy — empty-string — authoritative domain, which the source's
truthiness guard treats identically to an absent one). -/
structure LookupResult where
  publicKey : String
  authoritativeDomain : Option String := none
deriving DecidableEq, Repr

/-- The recognized caller options of `verify` that the verification logic
reads.  The `assertion` string itself is opaque: its decoded content is
carried by the oracle (`World`). -/
structure Args where
  audience : JsVal
  now : Option Int := none
  trustedIssuers : Option (List String) := none
  fallback : Option String := none
  aggregateAttrCertClaims : Bool := false

/-- Truthiness of an optional string variable (`undefined` or `""` are
falsy). -/
def strTruthy : Option String → Bool
  | none => false
  | some s => s ≠ ""

/-- The guard `args.trustedIssuers && args.trustedIssuers.indexOf(ultimateIssuer) !== -1`:
the trust list must itself be present and contain the (defined) ultimate
issuer. -/
def trustedContains : Option (List String) → Option String → Bool
  | some tis, some ui => ui ∈ tis
  | _, _ => false

/-- Formatting (`util.format("%s", v)`) of a possibly-undefined string. -/
def optStr : Option String → String
  | some s => s
  | none => "undefined"

/-- The diagnostic of branch 2 of `verifyIssuer`, naming expected and
actual issuer. -/
def untrustedIssuerMsg (expected actual : Option String) : String :=
  "untrusted issuer, expected \x27" ++ optStr expected ++ "\x27, got \x27" ++
    optStr actual ++ "\x27"

/-- The diagnostic of branch 3 of `verifyIssuer` (verbatim, including the
trailing space of the source string). -/
def noEmailMsg : String :=
  "untrusted assertion, doesn\x27t contain an email, and issuer is untrusted "

/-- The expected issuer computed inside `verifyIssuer`'s lookup callback:
the authoritative domain when the lookup succeeded and returned a truthy
one, otherwise the caller-supplied fallback. -/
def expectedIssuerOf (lookup : String → Except String LookupResult)
    (args : Args) (pd : String) : Option String :=
  match lookup pd with
  | .ok d => if strTruthy d.authoritativeDomain then d.authoritativeDomain else args.fallback
  | .error _ => args.fallback

/-- The function `verifyIssuer(browserid, args, cb, principalDomain, ultimateIssuer, obj)`,
instrumented: the second component records the domains passed to
`browserid.lookup` by this function, so that "no further lookup" and
"no retry" are statable.  Branch 1: an explicitly trusted issuer succeeds
with no lookup.  Branch 2: a truthy principal domain triggers exactly one
lookup and the strict comparison of expected and ultimate issuer.
Branch 3: no email and untrusted issuer fails. -/
def verifyIssuer (lookup : String → Except String LookupResult) (args : Args)
    (principalDomain ultimateIssuer : Option String) (obj : ResultObj) :
    Except String ResultObj × List String :=
  if trustedContains args.trustedIssuers ultimateIssuer then (.ok obj, [])
  else if strTruthy principalDomain then
    let pd := principalDomain.getD ""
    let expected := expectedIssuerOf lookup args pd
    if expected = ultimateIssuer then (.ok obj, [pd])
    else (.error (untrustedIssuerMsg expected ultimateIssuer), [pd])
  else (.error noEmailMsg, [])

/-- The value `verifyIssuer` delivers to the caller's callback. -/
def verifyIssuerE (lookup : String → Except String LookupResult) (args : Args)
    (principalDomain ultimateIssuer : Option String) (obj : ResultObj) :
    Except String ResultObj :=
  (verifyIssuer lookup args principalDomain ultimateIssuer obj).1

/-- The function `aggregateAttrCertClaims(obj, scope, attrCert, claims)`: extend
`obj.idpClaims` with the claims, record each claim's asserting scope in
`_claim_names`, and the raw token of the scope in `_claim_sources`. -/
def aggregateAttrCertClaims (obj : ResultObj) (scope : JsVal) (attrCert : String)
    (claims : List (String × JsVal)) : ResultObj :=
  let idp := claims.foldl (fun m kv => objSet m kv.1 kv.2) (obj.idpClaims.getD [])
  let names := claims.foldl (fun m kv => objSet m kv.1 scope) obj.claimNames
  { obj with idpClaims := some idp,
             claimNames := names,
             claimSources := scopeSet obj.claimSources scope attrCert }

/-- The error raised on a scope collision, verbatim. -/
def collisionMsg : String := "multiple attribute certificates with same scope"

/-- The error raised on a chain of more than one certificate, verbatim. -/
def chainingMsg : String := "certificate chaining is not yet allowed"

/-- The state of the attribute-certificate loop: the mutable response
object and the calls made so far to the caller's callback `cb` (an error
string, or `(null, obj)` modelled as `ok`). -/
structure LoopState where
  obj : ResultObj
  calls : List (Except String ResultObj)
deriving Repr

/-- One completion of the `_.each(userClaims.jac, ...)` branch at `index = i`
(the inner callback of `verifyAttributeCert`): extract the extra claims of
the branch's outcome; when non-null, either raise the scope-collision
error (returning early, before the index check) or store the claims
per-scope / aggregate them; finally, when `i` is the last index of the
source array, run `verifyIssuer` — the source's completion condition. -/
def attrBranch (aggregate : Bool) (issuerK : ResultObj → Except String ResultObj)
    (jacList : List String) (outcome : Nat → Option Payload)
    (st : LoopState) (i : Nat) : LoopState :=
  let indexCheck := fun (st : LoopState) =>
    if i = jacList.length - 1
    then { st with calls := st.calls ++ [issuerK st.obj] }
    else st
  match extractExtraClaims (outcome i) with
  | none => indexCheck st
  | some ext =>
    let p := (outcome i).getD {}
    if (scopeGet (st.obj.attributeCertClaims.getD []) p.scope).isSome then
      { st with calls := st.calls ++ [.error collisionMsg] }
    else
      let stored := some (scopeSet (st.obj.attributeCertClaims.getD []) p.scope ext)
      let obj :=
        if aggregate then aggregateAttrCertClaims st.obj p.scope (jacList.getD i "") ext
        else { st.obj with attributeCertClaims := stored }
      indexCheck { st with obj := obj }

/-- Run the attribute-certificate branch completions in the given order
(`sched` lists the branch indices in the order their asynchronous
verifications complete; the JavaScript scheduler provides no ordering
guarantee beyond each branch completing once). -/
def runAttrSteps (aggregate : Bool) (issuerK : ResultObj → Except String ResultObj)
    (jacList : List String) (outcome : Nat → Option Payload)
    (st : LoopState) (sched : List Nat) : LoopState :=
  sched.foldl (attrBranch aggregate issuerK jacList outcome) st

/-- The characters after the first `@`, or `none` when there is none — the
match of the regular expression `/\x40(.*)$/`. -/
def afterFirstAt : List Char → Option (List Char)
  | [] => none
  | c :: rest => if c = '@' then some rest else afterFirstAt rest

/-- The function `extractDomainFromEmail(email)`: the text after the first `@`,
lowercased; `none` models the exception thrown (and caught by the caller)
when the string has no `@`. -/
def extractDomainFromEmail (email : String) : Option String :=
  match afterFirstAt email.toList with
  | none => none
  | some cs => some (String.mk (cs.map Char.toLower))

/-- The outcome of the `try` block that unbundles the assertion: either it
threw before any claims were assigned, or it decoded the leaf
certificate's raw bytes and payload and the signed assertion's payload
(email extraction may still fail afterwards without unsetting these). -/
inductive ParseOutcome where
  | failEarly
  | parsed (leafCert : String) (idp : Payload) (user : Payload)
deriving Repr

/-- The email variable after the two assignments: the principal's `email`
when the `principal` object is present and that field is truthy, else the
`sub` claim. -/
def emailOf (idp : Payload) : JsVal :=
  let e := match idp.principal with
           | some p => objGet p "email"
           | none => .undef
  if truthy e then e else idp.sub

/-- The principal domain derived in the `try` block (`none` when parsing
failed early or the email value contains no `@`). -/
def principalDomainOf : ParseOutcome → Option String
  | .failEarly => none
  | .parsed _ idp _ => extractDomainFromEmail (jsToString (emailOf idp))

/-- The value `userClaims.jac` as seen by the `Array.isArray` test. -/
def jacOf : ParseOutcome → Option (List String)
  | .failEarly => none
  | .parsed _ _ user => user.jac

/-- The raw leaf certificate bytes handed to the digest binding. -/
def leafCertOf : ParseOutcome → String
  | .failEarly => ""
  | .parsed leaf _ _ => leaf

/-- The field `obj.email` is set only when `idpClaims && idpClaims.principal &&
idpClaims.principal.email` all hold. -/
def emailFieldOf : Option Payload → Option JsVal
  | none => none
  | some idp =>
    match idp.principal with
    | none => none
    | some p => if truthy (objGet p "email") then some (objGet p "email") else none

/-- The idp / user payloads as later stages see them (`undefined` when the
unbundling threw early). -/
def claimsOfParse : ParseOutcome → Option Payload × Option Payload
  | .failEarly => (none, none)
  | .parsed _ idp user => (some idp, some user)

/-- The base response object assembled after the audience check. -/
def mkBaseObj (audience expires : JsVal) (issuer : Option String)
    (po : ParseOutcome) : ResultObj :=
  { audience := audience, expires := expires, issuer := issuer,
    email := emailFieldOf (claimsOfParse po).1,
    idpClaims := extractExtraClaims (claimsOfParse po).1,
    userClaims := extractExtraClaims (claimsOfParse po).2 }

/-- One certificate of the bundle as the chain walk observes it: its `iss`
domain and whether its signature verifies under the key fetched for that
domain (with the error jwcrypto reports otherwise). -/
structure CertSpec where
  issuer : String
  sigOk : Bool := true
  sigErr : String := "bad signature"
deriving Repr

/-- The bundle as `jwcrypto.cert.verifyBundle` observes it: the
certificate chain, whether the terminal assertion's signature verifies
under the leaf key, and the assertion parameters it reports on success. -/
structure BundleSpec where
  certs : List CertSpec
  assertionSigOk : Bool := true
  assertionSigErr : String := "bad signature"
  assertionAudience : JsVal := .undef
  assertionExpires : JsVal := .undef
deriving Repr

/-- The chain walk of `verifyBundle` with the per-issuer key fetch: for
each certificate in order, `ultimateIssuer` is updated, the issuer's key
is looked up (`browserid.lookup`; an error is delivered to `cb` at once
and stops the walk), and the certificate's signature is checked under the
fetched key.  On success the accumulated ultimate issuer and public key
are those of the last link. -/
def runChain (lookup : String → Except String LookupResult) :
    List CertSpec → Option String → Option String →
    Except String (Option String × Option String)
  | [], ui, uk => .ok (ui, uk)
  | c :: rest, _, _ =>
    match lookup c.issuer with
    | .error e => .error e
    | .ok d =>
      if c.sigOk then runChain lookup rest (some c.issuer) (some d.publicKey)
      else .error c.sigErr

/-- The behaviour of every external collaborator during one `verify` call,
plus the completion order of the attribute-certificate branches
(`schedule` holds branch indices in completion order; the verifier itself
imposes no order). -/
structure World where
  lookup : String → Except String LookupResult
  sigVerify : String → String → Int → Option Payload
  algs : DigestAlgs
  compareAud : JsVal → JsVal → Option String
  decoded : ParseOutcome
  bundle : BundleSpec
  schedule : List Nat

/-- The instant `args.now || new Date()`: the pinned instant when supplied, else the
clock sampled at call time. -/
def nowOf (args : Args) (currentTime : Int) : Int :=
  match args.now with
  | some t => t
  | none => currentTime

/-- The body of `verify` after the `now` computation: derive the principal
domain, walk the chain, check the assertion signature, reject chains
longer than one certificate, match the audience, build the base object,
and either run the attribute-certificate loop or resolve trust directly.
The returned list holds every invocation of the caller's callback, in
order (the source can invoke it zero, one, or several times). -/
def verifyAt (w : World) (args : Args) (now : Int) :
    List (Except String ResultObj) :=
  let pd := principalDomainOf w.decoded
  match runChain w.lookup w.bundle.certs none none with
  | .error e => [.error e]
  | .ok (ultIssuer, ultKey) =>
    if w.bundle.assertionSigOk = false then [.error w.bundle.assertionSigErr]
    else if w.bundle.certs.length > 1 then [.error chainingMsg]
    else
      match w.compareAud w.bundle.assertionAudience args.audience with
      | some e => [.error ("audience mismatch: " ++ e)]
      | none =>
        let obj0 := mkBaseObj w.bundle.assertionAudience w.bundle.assertionExpires
                      ultIssuer w.decoded
        let issuerK := fun o => verifyIssuerE w.lookup args pd ultIssuer o
        match jacOf w.decoded with
        | none => [issuerK obj0]
        | some jacList =>
          let outcome := fun i =>
            verifyAttributeCert w.algs w.sigVerify (jacList.getD i "") now
              (optStr ultKey) (leafCertOf w.decoded) (optStr ultIssuer)
          (runAttrSteps args.aggregateAttrCertClaims issuerK jacList outcome
             { obj := { obj0 with attributeCertClaims := some [] }, calls := [] }
             w.schedule).calls

/-- One invocation of `verify`, with `currentTime` the wall clock sampled
by `new Date()` at that moment.  The module keeps no state between calls:
everything the call reads is in `w`, `args` and `currentTime`. -/
def verifyCall (w : World) (args : Args) (currentTime : Int) :
    List (Except String ResultObj) :=
  verifyAt w args (nowOf args currentTime)

/-- Whether a callback invocation delivered a result (`cb(null, obj)`)
rather than an error. -/
def isOkCall : Except String ResultObj → Bool
  | .ok _ => true
  | .error _ => false

/-!
## Concrete collaborator instantiations

Closed worlds used by the counterexamples and witnesses below.  The digest
functions are injective stand-ins for the sjcl hashes; the token strings
`"ac0"`, `"ac1"`, `"ac2"` are opaque attribute-certificate JWTs whose
decoded payloads the `sigVerify` oracles return. -/

/-- Stand-in digest algorithms for witnesses. -/
def testAlgs : DigestAlgs := ⟨fun s => "h:" ++ s, fun s => "H:" ++ s⟩

/-- A resolver that knows the issuer `idp.example` and fails every other
domain lookup. -/
def testLookup : String → Except String LookupResult :=
  fun d => if d = "idp.example" then .ok ⟨"pk", none⟩ else .error "lookup failed"

/-- A leaf-certificate payload carrying only a bare `sub`. -/
def idpSubOnly : Payload := { sub := .str "u@example.com" }

/-- A digest descriptor matching the leaf bytes `"leafc"` under
`testAlgs`. -/
def leafDig : CDI := ⟨.str "S256", .str "h:leafc"⟩

/-- Attribute-cert payload, scope `s0`, valid binding. -/
def acPay0 : Payload := { top := [("a", .str "1")], scope := .str "s0", cdi := some leafDig }

/-- Attribute-cert payload, scope `s1`, valid binding. -/
def acPay1 : Payload := { top := [("b", .str "2")], scope := .str "s1", cdi := some leafDig }

/-- Attribute-cert payload, scope `s`, valid binding. -/
def acPayS0 : Payload := { top := [("a", .str "1")], scope := .str "s", cdi := some leafDig }

/-- Second attribute-cert payload with the same scope `s`. -/
def acPayS1 : Payload := { top := [("b", .str "2")], scope := .str "s", cdi := some leafDig }

/-- Attribute-cert payload, scope `t`, valid binding. -/
def acPayT : Payload := { top := [("c", .str "3")], scope := .str "t", cdi := some leafDig }

/-- Attribute-cert payload, scope `s`, but with no digest descriptor: its
binding to the primary certificate fails. -/
def acPayBad : Payload := { top := [("a", .str "1")], scope := .str "s" }

/-- A single-certificate bundle issued by `idp.example` whose signatures
verify. -/
def baseBundle : BundleSpec :=
  { certs := [{ issuer := "idp.example" }],
    assertionAudience := .str "https://rp.example", assertionExpires := .num 42 }

/-- Assemble a test world around `testLookup` / `testAlgs` /
`baseBundle`. -/
def mkTestWorld (sv : String → String → Int → Option Payload)
    (user : Payload) (sched : List Nat) : World :=
  { lookup := testLookup, sigVerify := sv, algs := testAlgs,
    compareAud := fun _ _ => none,
    decoded := .parsed "leafc" idpSubOnly user,
    bundle := baseBundle, schedule := sched }

/-- Caller arguments that explicitly trust `idp.example`. -/
def trustedArgs : Args :=
  { audience := .str "aud", now := some 0, trustedIssuers := some ["idp.example"] }

/-- Two attribute certificates with distinct scopes. -/
def svTwo : String → String → Int → Option Payload :=
  fun jwt _ _ =>
    if jwt = "ac0" then some acPay0 else if jwt = "ac1" then some acPay1 else none

/-- Three attribute certificates; the first two share scope `s`. -/
def svThree : String → String → Int → Option Payload :=
  fun jwt _ _ =>
    if jwt = "ac0" then some acPayS0 else if jwt = "ac1" then some acPayS1
    else if jwt = "ac2" then some acPayT else none

/-- First certificate carries scope `s` but fails its digest binding; the
second carries scope `s` and is valid. -/
def svBadFirst : String → String → Int → Option Payload :=
  fun jwt _ _ =>
    if jwt = "ac0" then some acPayBad else if jwt = "ac1" then some acPayS1 else none

/-- Both certificates valid and sharing scope `s`. -/
def svSameScope : String → String → Int → Option Payload :=
  fun jwt _ _ =>
    if jwt = "ac0" then some acPayS0 else if jwt = "ac1" then some acPayS1 else none

/-- World with two embedded attribute certificates of distinct scopes. -/
def raceWorld : World := mkTestWorld svTwo { jac := some ["ac0", "ac1"] } [0, 1]

/-- World with three embedded attribute certificates, the first two
sharing a scope, completing in submission order. -/
def tripleWorld : World :=
  mkTestWorld svThree { jac := some ["ac0", "ac1", "ac2"] } [0, 1, 2]

/-- World where the two embedded certificates share scope `s` but the
first fails its digest binding. -/
def badFirstWorld : World := mkTestWorld svBadFirst { jac := some ["ac0", "ac1"] } [0, 1]

/-- World where both embedded certificates are valid with the same
scope. -/
def sameScopeWorld : World := mkTestWorld svSameScope { jac := some ["ac0", "ac1"] } [0, 1]

/-- Arguments `trustedArgs` with flat aggregation selected. -/
def aggregateArgs : Args := { trustedArgs with aggregateAttrCertClaims := true }

/-- World with no embedded attribute certificates. -/
def plainWorld : World := mkTestWorld svTwo {} [0, 1]

/-- Variant of `plainWorld` with a two-certificate chain whose first signature is
invalid. -/
def badChainWorld : World :=
  { plainWorld with
    bundle := { baseBundle with
                certs := [{ issuer := "idp.example", sigOk := false },
                          { issuer := "idp.example" }] } }

/-- Variant of `plainWorld` with a two-certificate chain whose signatures all
verify. -/
def longChainWorld : World :=
  { plainWorld with
    bundle := { baseBundle with
                certs := [{ issuer := "idp.example" }, { issuer := "idp.example" }] } }

/-- A world whose resolver fails every lookup. -/
def deadLookupWorld : World := { plainWorld with lookup := fun _ => .error "boom" }

/-- Caller arguments with no trust list but a fallback of `idp.example`. -/
def fallbackArgs : Args :=
  { audience := .str "aud", now := some 0, fallback := some "idp.example" }

/-- A resolver whose support document for `example.com` names
`idp.example` as authoritative. -/
def authLookup : String → Except String LookupResult :=
  fun d => if d = "example.com" then .ok ⟨"pk", some "idp.example"⟩
           else .error "lookup failed"

/-- A concrete response object. -/
def objFix : ResultObj :=
  { audience := .str "https://rp.example", expires := .num 42,
    issuer := some "idp.example" }

/-- A payload whose top-level claim `a` is truthy and whose principal also
carries `a`. -/
def truthyTopPayload : Payload :=
  { top := [("a", .str "1")], principal := some [("a", .str "2")] }

/-- Object `objFix` as it stands at the start of the attribute-certificate loop
(`obj.attributeCertClaims = []`). -/
def objLoop : ResultObj := { objFix with attributeCertClaims := some [] }

/-!
## Association-list helper lemmas
-/

theorem objGet_objSet_self (m : List (String × JsVal)) (k : String) (v : JsVal) :
    objGet (objSet m k v) k = v := by
  induction m with
  | nil => simp [objGet, objSet]
  | cons kv rest ih =>
    obtain ⟨k1, v1⟩ := kv
    by_cases h : k1 = k
    · simp [objSet, objGet, h]
    · simp [objSet, objGet, h, ih]

theorem objGet_objSet_ne (m : List (String × JsVal)) (k k' : String) (v : JsVal)
    (h : k' ≠ k) : objGet (objSet m k' v) k = objGet m k := by
  induction m with
  | nil => simp [objGet, objSet, h]
  | cons kv rest ih =>
    obtain ⟨k1, v1⟩ := kv
    by_cases h1 : k1 = k'
    · subst h1
      simp [objSet, objGet, h]
    · by_cases h2 : k1 = k
      · simp [objSet, objGet, h1, h2, Ne.symm h]
      · simp [objSet, objGet, h1, h2, ih]

/-- The principal overlay never changes a key whose current value is
truthy. -/
theorem overlayPrincipal_preserves_truthy (p : List (String × JsVal)) :
    ∀ acc k, truthy (objGet acc k) = true →
      objGet (overlayPrincipal acc p) k = objGet acc k := by
  induction p with
  | nil => intro acc k _; rfl
  | cons kv rest ih =>
    intro acc k h
    simp only [overlayPrincipal]
    by_cases hc : kv.1 ∉ reservedClaimNames ∧ kv.1 ≠ "email" ∧
        truthy (objGet acc kv.1) = false
    · rw [if_pos hc]
      by_cases hk : kv.1 = k
      · rw [hk] at hc
        rw [hc.2.2] at h
        cases h
      · have hne : kv.1 ≠ k := hk
        have hget : objGet (objSet acc kv.1 kv.2) k = objGet acc k :=
          objGet_objSet_ne acc k kv.1 kv.2 hne
        rw [ih (objSet acc kv.1 kv.2) k (by rw [hget]; exact h), hget]
    · rw [if_neg hc]
      exact ih acc k h

/-- The principal overlay never writes the key `email`. -/
theorem overlayPrincipal_email (p : List (String × JsVal)) :
    ∀ acc, objGet (overlayPrincipal acc p) "email" = objGet acc "email" := by
  induction p with
  | nil => intro acc; rfl
  | cons kv rest ih =>
    intro acc
    simp only [overlayPrincipal]
    by_cases hc : kv.1 ∉ reservedClaimNames ∧ kv.1 ≠ "email" ∧
        truthy (objGet acc kv.1) = false
    · rw [if_pos hc, ih, objGet_objSet_ne acc "email" kv.1 kv.2 hc.2.1]
    · rw [if_neg hc, ih]

/-!
## Claim theorems
-/

/-- C8: for every byte string and descriptor, `verifyDigest` is truthy
exactly when the descriptor has a known algorithm name (`S256` or `S512`),
a string `dig`, and the digest of the bytes under that algorithm is
character-for-character equal to `dig`; and whenever `dig` is a prefix of
the computed digest without being equal to it, `verifyDigest` is falsy, so
a prefix match does not suffice. -/
theorem c8_verifyDigest_exact_match (algs : DigestAlgs) (data : String) (cdi : Option CDI) :
    (verifyDigest algs data cdi = true ↔
      (cdi = some ⟨JsVal.str "S256", JsVal.str (algs.s256 data)⟩ ∨
       cdi = some ⟨JsVal.str "S512", JsVal.str (algs.s512 data)⟩)) ∧
    (∀ a dg f, digestAlg algs a = some f →
       List.isPrefixOf dg.toList (f data).toList = true → dg ≠ f data →
       verifyDigest algs data (some ⟨JsVal.str a, JsVal.str dg⟩) = false) := by
  constructor
  · cases cdi with
    | none => simp [verifyDigest]
    | some d =>
      obtain ⟨al, dg⟩ := d
      cases al with
      | str a =>
        cases dg with
        | undef => simp [verifyDigest]
        | null => simp [verifyDigest]
        | bool b => simp [verifyDigest]
        | num n => simp [verifyDigest]
        | objRef i => simp [verifyDigest]
        | str dgs =>
          by_cases ha : a = "S256"
          · subst ha
            simp [verifyDigest, digestAlg, eq_comm]
          · by_cases hb : a = "S512"
            · subst hb
              simp [verifyDigest, digestAlg, ha, eq_comm]
            · simp [verifyDigest, digestAlg, ha, hb]
      | undef => simp [verifyDigest]
      | null => simp [verifyDigest]
      | bool b => simp [verifyDigest]
      | num n => simp [verifyDigest]
      | objRef i => simp [verifyDigest]
  · intro a dg f hf _hpre hne
    by_cases ha : a = "S256"
    · subst ha
      have hfe : algs.s256 = f := Option.some.inj hf
      subst hfe
      simp [verifyDigest, digestAlg]
      intro hc
      exact hne hc.symm
    · by_cases hb : a = "S512"
      · subst hb
        have hfe : algs.s512 = f := Option.some.inj hf
        subst hfe
        simp [verifyDigest, digestAlg]
        intro hc
        exact hne hc.symm
      · exact absurd hf (by simp [digestAlg, ha, hb])

/-- C8 witness: under the stand-in algorithms, the digest of `"leafc"` is
`"h:leafc"`, and the descriptor carrying its strict prefix `"h:leaf"` is
rejected. -/
theorem c8_witness :
    List.isPrefixOf ("h:leaf".toList) ((testAlgs.s256 "leafc").toList) = true ∧
    verifyDigest testAlgs "leafc" (some ⟨JsVal.str "S256", JsVal.str "h:leaf"⟩) = false :=
  ⟨by decide,
   (c8_verifyDigest_exact_match testAlgs "leafc"
      (some ⟨JsVal.str "S256", JsVal.str "h:leaf"⟩)).2 "S256" "h:leaf" testAlgs.s256
      rfl (by decide) (by decide)⟩

/-- C6 (amended): when a payload has a `principal` object, the extracted
extra-claims map never takes its `email` entry from the principal (it
equals the top-level extraction's `email` entry), and a principal field
never overrides a top-level extra claim whose value is truthy.  (The
source's `!extraClaims[key]` guard is a falsiness test, so a falsy-valued
top-level extra claim — e.g. `""` — is overridden; see the
counterexample.) -/
theorem c6_principal_no_truthy_override (c : Payload) (p m : List (String × JsVal))
    (k : String) (hp : c.principal = some p)
    (hm : extractExtraClaims (some c) = some m) :
    objGet m "email" = objGet (topExtract [] c.top) "email" ∧
    (truthy (objGet (topExtract [] c.top) k) = true →
       objGet m k = objGet (topExtract [] c.top) k) := by
  have hm' : m = overlayPrincipal (topExtract [] c.top) p := by
    simp only [extractExtraClaims, hp] at hm
    by_cases he : (overlayPrincipal (topExtract [] c.top) p).isEmpty
    · simp [he] at hm
    · simp [he] at hm
      exact hm.symm
  subst hm'
  exact ⟨overlayPrincipal_email p _,
         fun ht => overlayPrincipal_preserves_truthy p _ k ht⟩

/-- C6 witness: for the payload whose top-level `a` is the truthy `"1"`
and whose principal carries `a := "2"`, the extraction keeps the top-level
value. -/
theorem c6_witness :
    objGet [("a", JsVal.str "1")] "email" = objGet (topExtract [] truthyTopPayload.top) "email" ∧
    objGet [("a", JsVal.str "1")] "a" = objGet (topExtract [] truthyTopPayload.top) "a" := by
  have h := c6_principal_no_truthy_override truthyTopPayload [("a", JsVal.str "2")]
    [("a", JsVal.str "1")] "a" rfl rfl
  exact ⟨h.1, h.2 (by decide)⟩

/-- C6 counterexample: `foo` is a non-reserved claim present among the
top-level extra claims (with the falsy value `""`), yet the principal's
`foo` overrides it in the result — refuting "a principal field is overlaid
only when no claim of the same name is already present" and "a principal
field never overrides an existing top-level extra claim". -/
theorem c6_counterexample :
    "foo" ∉ reservedClaimNames ∧
    objGet (topExtract [] [("foo", JsVal.str "")]) "foo" = JsVal.str "" ∧
    extractExtraClaims
        (some { top := [("foo", JsVal.str "")],
                principal := some [("foo", JsVal.str "x")] }) =
      some [("foo", JsVal.str "x")] :=
  ⟨by decide, rfl, rfl⟩

/-- C4: `verifyIssuer` follows the claimed decision order: an explicitly
trusted ultimate issuer succeeds with no lookup; otherwise with a truthy
principal domain, one lookup is made, the expected issuer is the
authoritative domain when resolvable and the caller's fallback otherwise,
success is exactly strict equality of expected and ultimate issuer, and
the failure message names both; otherwise the no-email error is
returned. -/
theorem c4_verifyIssuer_decision_order (lookup : String → Except String LookupResult)
    (args : Args) (pd ui : Option String) (obj : ResultObj) :
    (trustedContains args.trustedIssuers ui = true →
       verifyIssuer lookup args pd ui obj = (Except.ok obj, [])) ∧
    (trustedContains args.trustedIssuers ui = false → strTruthy pd = true →
       (∀ d, lookup (pd.getD "") = Except.ok d →
          strTruthy d.authoritativeDomain = true →
          expectedIssuerOf lookup args (pd.getD "") = d.authoritativeDomain) ∧
       (∀ e, lookup (pd.getD "") = Except.error e →
          expectedIssuerOf lookup args (pd.getD "") = args.fallback) ∧
       (expectedIssuerOf lookup args (pd.getD "") = ui →
          verifyIssuer lookup args pd ui obj = (Except.ok obj, [pd.getD ""])) ∧
       (expectedIssuerOf lookup args (pd.getD "") ≠ ui →
          verifyIssuer lookup args pd ui obj =
            (Except.error (untrustedIssuerMsg (expectedIssuerOf lookup args (pd.getD "")) ui),
             [pd.getD ""]))) ∧
    (trustedContains args.trustedIssuers ui = false → strTruthy pd = false →
       verifyIssuer lookup args pd ui obj = (Except.error noEmailMsg, [])) := by
  refine ⟨?_, ?_, ?_⟩
  · intro h1
    simp [verifyIssuer, h1]
  · intro h1 h2
    refine ⟨?_, ?_, ?_, ?_⟩
    · intro d hd hauth
      simp [expectedIssuerOf, hd, hauth]
    · intro e he
      simp [expectedIssuerOf, he]
    · intro hexp
      simp [verifyIssuer, h1, h2, hexp]
    · intro hexp
      simp [verifyIssuer, h1, h2, hexp]
  · intro h1 h2
    simp [verifyIssuer, h1, h2]

/-- C4 witness: with no explicit trust, principal domain `example.com`
whose authoritative issuer resolves to `idp.example`, and ultimate issuer
`idp.example`, trust resolution succeeds after exactly one lookup of
`example.com`. -/
theorem c4_witness :
    verifyIssuer authLookup fallbackArgs (some "example.com") (some "idp.example") objFix =
      (Except.ok objFix, ["example.com"]) := by
  have h := c4_verifyIssuer_decision_order authLookup fallbackArgs
    (some "example.com") (some "idp.example") objFix
  exact (h.2.1 rfl rfl).2.2.1 rfl

/-- C1: `verifyAttributeCert` yields the payload only when the signature
collaborator accepts the token under the primary certificate's public key
at the shared `now`, the payload carries a truthy `scope`, its
digest-binding descriptor verifies against the primary certificate's raw
bytes, and any truthy `iss` strictly equals the primary certificate's
issuer; a certificate whose digest binding fails yields `null`, and a
branch whose certificate was rejected leaves the response object
unchanged, so none of its claims appear in the final result. -/
theorem c1_attrCert_gate (algs : DigestAlgs)
    (sv : String → String → Int → Option Payload)
    (jwt : String) (now : Int) (pk certData certIssuer : String) (p : Payload) :
    (verifyAttributeCert algs sv jwt now pk certData certIssuer = some p →
       sv jwt pk now = some p ∧ truthy p.scope = true ∧
       verifyDigest algs certData p.cdi = true ∧
       (truthy p.iss = true → p.iss = JsVal.str certIssuer)) ∧
    (sv jwt pk now = some p → verifyDigest algs certData p.cdi = false →
       verifyAttributeCert algs sv jwt now pk certData certIssuer = none) ∧
    (∀ aggregate issuerK jacList outcome st i, outcome i = none →
       (attrBranch aggregate issuerK jacList outcome st i).obj = st.obj) := by
  refine ⟨?_, ?_, ?_⟩
  · intro h
    cases hs : sv jwt pk now with
    | none => simp [verifyAttributeCert, hs] at h
    | some q =>
      simp only [verifyAttributeCert, hs] at h
      by_cases hc : truthy q.scope = false ∨ verifyDigest algs certData q.cdi = false ∨
          (truthy q.iss = true ∧ q.iss ≠ JsVal.str certIssuer)
      · rw [if_pos hc] at h
        cases h
      · rw [if_neg hc] at h
        have hpq : q = p := Option.some.inj h
        subst hpq
        refine ⟨rfl, ?_, ?_, ?_⟩
        · cases hsc : truthy q.scope
          · exact absurd (Or.inl hsc) hc
          · rfl
        · cases hd : verifyDigest algs certData q.cdi
          · exact absurd (Or.inr (Or.inl hd)) hc
          · rfl
        · intro hiss
          by_contra hne
          exact hc (Or.inr (Or.inr ⟨hiss, hne⟩))
  · intro hs hd
    simp only [verifyAttributeCert, hs]
    rw [if_pos (Or.inr (Or.inl hd))]
  · intro aggregate issuerK jacList outcome st i h
    simp only [attrBranch, h, extractExtraClaims]
    split <;> rfl

/-- C1 witness: the token `ac0` is accepted by `verifyAttributeCert` under
the test world, and the theorem's conclusions evaluate at it. -/
theorem c1_witness :
    truthy acPay0.scope = true ∧ verifyDigest testAlgs "leafc" acPay0.cdi = true := by
  have h := (c1_attrCert_gate testAlgs svTwo "ac0" 0 "pk" "leafc" "idp.example" acPay0).1 rfl
  exact ⟨h.2.1, h.2.2.1⟩

/-- C2 evidence of the completion-order bug: with two embedded attribute
certificates, after only the last-index branch has completed (completion
order `[1]`, branch `0` still pending) the caller's callback has already
been invoked, and the calls list is already that of the fully completed
run `[1, 0]` — trust resolution is not deferred until all branches
complete; moreover with three certificates whose first two share a scope,
the in-order run invokes the callback twice (the collision error and then
a result), violating exactly-once delivery. -/
theorem c2_completion_race :
    (verifyCall { raceWorld with schedule := [1] } trustedArgs 0).length = 1 ∧
    verifyCall { raceWorld with schedule := [1] } trustedArgs 0 =
      verifyCall { raceWorld with schedule := [1, 0] } trustedArgs 0 ∧
    (verifyCall tripleWorld trustedArgs 0).length = 2 ∧
    (verifyCall tripleWorld trustedArgs 0).head? = some (Except.error collisionMsg) :=
  ⟨rfl, rfl, rfl, rfl⟩

/-- C3 counterexample: two pairs of attribute certificates carrying the
same scope for which `verify` does not fail.  First pair: the first
certificate carries scope `s` but fails its digest binding while the
second is valid — the single callback delivers a result, not the
scope-collision error.  Second pair: both certificates are valid with
scope `s`, but flat aggregation is selected, where the collision check
(keyed on the never-populated `attributeCertClaims`) cannot fire — again a
result is delivered. -/
theorem c3_counterexample :
    acPayBad.scope = acPayS1.scope ∧
    (verifyCall badFirstWorld trustedArgs 0).map isOkCall = [true] ∧
    acPayS0.scope = acPayS1.scope ∧
    (verifyCall sameScopeWorld aggregateArgs 0).map isOkCall = [true] :=
  ⟨rfl, rfl, rfl, rfl⟩

/-- C3 (amended): in per-scope storage mode (no flat aggregation), when
both of two attribute certificates are individually accepted with
non-empty extra claims and share a scope, the in-order run of the two
branches delivers exactly the scope-collision error. -/
theorem c3_scope_collision_amended (issuerK : ResultObj → Except String ResultObj)
    (c0 c1 : String) (outcome : Nat → Option Payload) (p0 p1 : Payload)
    (e0 e1 : List (String × JsVal)) (obj : ResultObj)
    (h0 : outcome 0 = some p0) (h1 : outcome 1 = some p1)
    (hx0 : extractExtraClaims (some p0) = some e0)
    (hx1 : extractExtraClaims (some p1) = some e1)
    (hs : p1.scope = p0.scope)
    (hobj : obj.attributeCertClaims = some []) :
    (runAttrSteps false issuerK [c0, c1] outcome
       { obj := obj, calls := [] } [0, 1]).calls = [Except.error collisionMsg] := by
  simp [runAttrSteps, attrBranch, h0, h1, hx0, hx1, hobj, hs, scopeGet, scopeSet]

/-- C3 witness: the amended collision behaviour evaluated at the two valid
same-scope certificates. -/
theorem c3_witness :
    (runAttrSteps false Except.ok ["ac0", "ac1"]
       (fun i => if i = 0 then some acPayS0 else if i = 1 then some acPayS1 else none)
       { obj := objLoop, calls := [] } [0, 1]).calls = [Except.error collisionMsg] :=
  c3_scope_collision_amended Except.ok "ac0" "ac1" _ acPayS0 acPayS1
    [("a", JsVal.str "1")] [("b", JsVal.str "2")] objLoop rfl rfl rfl rfl rfl rfl

/-- C5 counterexample: a bundle with a two-certificate chain whose first
signature is invalid fails with the signature error, not the chaining
error — so the chaining failure is not independent of signature
validity. -/
theorem c5_counterexample :
    badChainWorld.bundle.certs.length = 2 ∧
    verifyCall badChainWorld trustedArgs 0 = [Except.error "bad signature"] ∧
    "bad signature" ≠ chainingMsg :=
  ⟨rfl, rfl, by decide⟩

/-- C5 (amended): every bundle whose chain holds more than one certificate
fails — the callback receives exactly one error and never a result; that
error is the chaining error precisely when the chain walk (lookups and
certificate signatures) and the assertion signature succeed, and the
underlying lookup/signature error otherwise. -/
theorem c5_chain_too_long_amended (w : World) (args : Args) (ct : Int)
    (hlen : w.bundle.certs.length > 1) :
    (∃ e, verifyCall w args ct = [Except.error e]) ∧
    (∀ r, runChain w.lookup w.bundle.certs none none = Except.ok r →
       w.bundle.assertionSigOk = true →
       verifyCall w args ct = [Except.error chainingMsg]) := by
  constructor
  · cases hrc : runChain w.lookup w.bundle.certs none none with
    | error e =>
      exact ⟨e, by simp [verifyCall, verifyAt, hrc]⟩
    | ok r =>
      obtain ⟨ui, uk⟩ := r
      cases hsig : w.bundle.assertionSigOk with
      | false =>
        exact ⟨w.bundle.assertionSigErr, by simp [verifyCall, verifyAt, hrc, hsig]⟩
      | true =>
        exact ⟨chainingMsg, by simp [verifyCall, verifyAt, hrc, hsig, hlen]⟩
  · intro r hrc hsig
    obtain ⟨ui, uk⟩ := r
    simp [verifyCall, verifyAt, hrc, hsig, hlen]

/-- C5 witness: a two-certificate chain whose signatures and lookups all
succeed fails with the chaining error. -/
theorem c5_witness :
    verifyCall longChainWorld trustedArgs 0 = [Except.error chainingMsg] := by
  have h := c5_chain_too_long_amended longChainWorld trustedArgs 0 (by decide)
  exact h.2 (some "idp.example", some "pk") rfl rfl

/-- C7 counterexample: the authoritative-domain lookup for the principal
domain `example.com` fails, yet verification delivers a success result —
the caller-supplied fallback (`idp.example`) is substituted as the
expected issuer instead of the lookup failure being terminal. -/
theorem c7_counterexample :
    plainWorld.lookup "example.com" = Except.error "lookup failed" ∧
    principalDomainOf plainWorld.decoded = some "example.com" ∧
    (verifyCall plainWorld fallbackArgs 0).map isOkCall = [true] :=
  ⟨rfl, rfl, rfl⟩

/-- C7 (amended): no lookup is retried.  A failed chain-link public-key
lookup is terminal: the chain walk errs with it and `verify` delivers
exactly that error.  Trust resolution performs at most one lookup, and
when that lookup fails it is not terminal: the caller's fallback is
substituted as the expected issuer, and resolution succeeds exactly when
the fallback equals the ultimate issuer. -/
theorem c7_lookup_failure_behaviour (w : World) (args : Args) (ct : Int) :
    (∀ e, runChain w.lookup w.bundle.certs none none = Except.error e →
       verifyCall w args ct = [Except.error e]) ∧
    (∀ c rest ui uk e, w.lookup c.issuer = Except.error e →
       runChain w.lookup (c :: rest) ui uk = Except.error e) ∧
    (∀ pd ui obj, (verifyIssuer w.lookup args pd ui obj).2.length ≤ 1) ∧
    (∀ pd ui obj e, trustedContains args.trustedIssuers ui = false →
       strTruthy pd = true → w.lookup (pd.getD "") = Except.error e →
       verifyIssuer w.lookup args pd ui obj =
         (if args.fallback = ui then (Except.ok obj, [pd.getD ""])
          else (Except.error (untrustedIssuerMsg args.fallback ui), [pd.getD ""]))) := by
  refine ⟨?_, ?_, ?_, ?_⟩
  · intro e hrc
    simp [verifyCall, verifyAt, hrc]
  · intro c rest ui uk e he
    simp [runChain, he]
  · intro pd ui obj
    simp only [verifyIssuer]
    split
    · simp
    · split
      · split <;> simp
      · simp
  · intro pd ui obj e htr hpd he
    simp [verifyIssuer, htr, hpd, expectedIssuerOf, he]

/-- C7 witness: with a resolver that fails every lookup, the chain-link
lookup failure is delivered as the verification error. -/
theorem c7_witness :
    verifyCall deadLookupWorld trustedArgs 0 = [Except.error "boom"] :=
  (c7_lookup_failure_behaviour deadLookupWorld trustedArgs 0).1 "boom" rfl

/-- C9: `verify` keeps no mutable state across calls — with the `now`
argument pinned, two invocations with identical arguments and identical
collaborator behaviour yield identical callback sequences even when the
wall clock sampled by `new Date()` differs between the two calls. -/
theorem c9_verify_idempotent (w : World) (args : Args) (t1 t2 n : Int)
    (h : args.now = some n) :
    verifyCall w args t1 = verifyCall w args t2 := by
  simp [verifyCall, nowOf, h]

/-- C9 witness: two calls of the test world at wall-clock instants 3 and 7
agree. -/
theorem c9_witness :
    verifyCall raceWorld trustedArgs 3 = verifyCall raceWorld trustedArgs 7 :=
  c9_verify_idempotent raceWorld trustedArgs 3 7 0 rfl

/-- C10: when the leaf certificate carries a bare `sub` and no truthy
`principal.email`, the principal domain is still derived from `sub` (and
handed to trust resolution), while the response object carries no `email`
field; the single callback of a successful chain walk receives exactly
`verifyIssuer` applied to that sub-derived principal domain and the
email-free base object. -/
theorem c10_email_only_from_principal (w : World) (args : Args) (ct : Int)
    (leaf : String) (idp user : Payload) (c : CertSpec) (d : LookupResult) (s : String)
    (hw : w.decoded = ParseOutcome.parsed leaf idp user)
    (hsub : idp.sub = JsVal.str s)
    (hpe : ∀ q, idp.principal = some q → truthy (objGet q "email") = false)
    (hc : w.bundle.certs = [c]) (hcs : c.sigOk = true)
    (hl : w.lookup c.issuer = Except.ok d)
    (hsig : w.bundle.assertionSigOk = true)
    (haud : w.compareAud w.bundle.assertionAudience args.audience = none)
    (hjac : user.jac = none) :
    principalDomainOf w.decoded = extractDomainFromEmail s ∧
    (mkBaseObj w.bundle.assertionAudience w.bundle.assertionExpires
       (some c.issuer) w.decoded).email = none ∧
    verifyCall w args ct =
      [verifyIssuerE w.lookup args (extractDomainFromEmail s) (some c.issuer)
         (mkBaseObj w.bundle.assertionAudience w.bundle.assertionExpires
            (some c.issuer) w.decoded)] := by
  have hemail : emailOf idp = JsVal.str s := by
    cases hq : idp.principal with
    | none => simp [emailOf, hq, hsub, truthy]
    | some q => simp [emailOf, hq, hpe q hq, hsub]
  have hpd0 : principalDomainOf (ParseOutcome.parsed leaf idp user) =
      extractDomainFromEmail s := by
    simp [principalDomainOf, hemail, jsToString]
  have hef : emailFieldOf (some idp) = none := by
    cases hq : idp.principal with
    | none => simp [emailFieldOf, hq]
    | some q => simp [emailFieldOf, hq, hpe q hq]
  have hchain : runChain w.lookup w.bundle.certs none none =
      Except.ok (some c.issuer, some d.publicKey) := by
    rw [hc]
    simp [runChain, hl, hcs]
  have hlen : w.bundle.certs.length = 1 := by rw [hc]; rfl
  refine ⟨by rw [hw, hpd0], ?_, ?_⟩
  · rw [hw]
    simp [mkBaseObj, claimsOfParse, hef]
  · simp [verifyCall, verifyAt, hchain, hsig, hlen, haud, hw, jacOf, hjac, hpd0]

/-- C10 witness: the bare-`sub` leaf payload yields no `email` field while
its `sub` still determines the principal domain. -/
theorem c10_witness :
    principalDomainOf plainWorld.decoded = extractDomainFromEmail "u@example.com" ∧
    (mkBaseObj plainWorld.bundle.assertionAudience plainWorld.bundle.assertionExpires
       (some "idp.example") plainWorld.decoded).email = none := by
  have h := c10_email_only_from_principal plainWorld trustedArgs 0 "leafc" idpSubOnly {}
    { issuer := "idp.example" } ⟨"pk", none⟩ "u@example.com" rfl rfl
    (fun q hq => Option.noConfusion hq) rfl rfl rfl rfl rfl rfl
  exact ⟨h.1, h.2.1⟩

end BrowserIdVerify
